/-
Verification of the uptime-service-validation coordinator.

Shallow embedding of:
  * `uptime_service_validation/coordinator/coordinator.py`
    (the `State` batch state machine, `load_submissions`,
    `process_statehash_df`, `process`),
  * `uptime_service_validation/coordinator/aws_keyspaces_client.py`
    (`ShardCalculator`),
  * `tasks.py` (`init_database`).

Timestamps are modelled as natural numbers counting epoch seconds (the
source uses UTC datetimes and float epoch seconds; no claim depends on
sub-second precision).  Dataframes are modelled as lists of records kept
in source order.  Fallible operations (Python exceptions) are modelled
with `Except`.  Database writes performed by `process` and
`process_statehash_df` are recorded as an explicit trace of `Action`s,
so that claims about which rows get written and in which transaction can
be stated; the surrounding I/O (sleeping, launching verifier pods, Slack
alarms, logging) has no bearing on the claims and is not modelled.

Several helpers imported by `coordinator.py` live in
`uptime_service_validation/coordinator/helper.py`, which is not among
the provided sources.  Each such helper is modelled from the spec and
carries a doc comment starting with "Modelled from the spec:".
-/
import Mathlib

namespace UptimeValidation

/-- One row of the `submissions` table / the verified-submissions
dataframe (`state_hash_df`).  Mirrors the `Submission` dataclass fields
that `coordinator.py` actually reads. -/
structure Submission where
  submittedAt : Nat
  submitter : String
  createdAt : Nat
  stateHash : String
  parent : String
  height : Nat
  slot : Nat
  validationError : Option String
  verified : Bool
deriving DecidableEq

/-- The current batch window together with the bot-log id of the
previous batch (`state.batch` in `coordinator.py`). -/
structure Batch where
  startTime : Nat
  endTime : Nat
  botLogId : Nat
deriving DecidableEq

/-- Modelled from the spec: `Batch.next` is defined in `helper.py`,
which is not among the sources.  Per spec section 4.1, advancing
replaces the batch with
`{start = old.end, end = old.end + interval, bot_log_id = new id}`. -/
def Batch.next (b : Batch) (interval : Nat) (newBotLogId : Nat) : Batch :=
  { startTime := b.endTime, endTime := b.endTime + interval, botLogId := newBotLogId }

/-- The `State` class of `coordinator.py` (lines 42-110). -/
structure State where
  batch : Batch
  currentTimestamp : Nat
  retrialsLeft : Nat
  interval : Nat
  loopCount : Nat
  stop : Bool
deriving DecidableEq

/-- `State.__warn_if_work_took_longer_then_expected` (coordinator.py
lines 102-110): warns when `self.batch.start_time >= self.current_timestamp`. -/
def State.warnCheck (s : State) : Bool :=
  decide (s.currentTimestamp ≤ s.batch.startTime)

/-- `State.retry_batch` (coordinator.py lines 80-93): decrement
`retrials_left` if positive, else set `stop`; then bump the loop counter
and refresh `current_timestamp` to `now`. -/
def State.retryBatch (s : State) (now : Nat) : State :=
  let s1 :=
    if 0 < s.retrialsLeft then { s with retrialsLeft := s.retrialsLeft - 1 }
    else { s with stop := true }
  { s1 with loopCount := s1.loopCount + 1, currentTimestamp := now }

/-- `State.advance_to_next_batch` (coordinator.py lines 71-78): reset
`retrials_left` to `RETRY_COUNT`, replace the batch with the next one,
then run the overrun warning check (note: this runs AFTER the batch has
been replaced and BEFORE the timestamp refresh), bump the loop counter
and refresh the timestamp.  Returns the new state together with whether
the warning fired. -/
def State.advanceToNextBatch (s : State) (retryCount : Nat) (nextBotLogId : Nat)
    (now : Nat) : State × Bool :=
  let s1 := { s with retrialsLeft := retryCount,
                     batch := s.batch.next s.interval nextBotLogId }
  let warned := s1.warnCheck
  ({ s1 with loopCount := s1.loopCount + 1, currentTimestamp := now }, warned)

/-! ## ShardCalculator (`aws_keyspaces_client.py`, lines 312-346) -/

/-- `ShardCalculator.calculate_shard`. -/
def calculateShard (hour minute second : Nat) : Nat :=
  (3600 * hour + 60 * minute + second) / 144

/-- Seconds elapsed since midnight of the day of `t`. -/
def secondsOfDay (t : Nat) : Nat := t % 86400

/-- The `.hour` field of the datetime at epoch second `t`. -/
def hourOf (t : Nat) : Nat := secondsOfDay t / 3600

/-- The `.minute` field of the datetime at epoch second `t`. -/
def minuteOf (t : Nat) : Nat := secondsOfDay t % 3600 / 60

/-- The `.second` field of the datetime at epoch second `t`. -/
def secondOf (t : Nat) : Nat := secondsOfDay t % 60

/-- The shard of the second `t`, i.e.
`calculate_shard(t.hour, t.minute, t.second)`. -/
def shardOf (t : Nat) : Nat :=
  calculateShard (hourOf t) (minuteOf t) (secondOf t)

/-- The `while current_time < end_time` loop of
`calculate_shards_in_range`: add the shard of every second in
`[cur, endTime)`. -/
def shardsLoop (endTime : Nat) (cur : Nat) : Finset Nat :=
  if h : cur < endTime then insert (shardOf cur) (shardsLoop endTime (cur + 1))
  else ∅
termination_by endTime - cur
decreasing_by simp_wf; omega

/-- The shard set computed by `ShardCalculator.calculate_shards_in_range`:
the loop set, plus the shard of `end_time` when it is not already present
and `end_time` falls exactly on a 144-second boundary of its day. -/
def calculateShardsSet (startTime endTime : Nat) : Finset Nat :=
  let shards := shardsLoop endTime startTime
  let endShard := shardOf endTime
  if endShard ∈ shards then shards
  else if secondsOfDay endTime % 144 = 0 then insert endShard shards
  else shards

/-- The sorted shard list used to build the CQL fragment. -/
def calculateShardsList (startTime endTime : Nat) : List Nat :=
  (calculateShardsSet startTime endTime).sort (· ≤ ·)

/-- `ShardCalculator.calculate_shards_in_range`: the emitted CQL
condition string. -/
def calculateShardsInRange (startTime endTime : Nat) : String :=
  "shard in (" ++
    String.intercalate "," ((calculateShardsList startTime endTime).map toString)
    ++ ")"

/-! ## load_submissions (`coordinator.py`, lines 113-174) -/

/-- Model of a Python exception raised by the storage layer or by an
out-of-range indexing operation. -/
inductive PyError where
  | ioError
  | indexError
deriving DecidableEq

/-- The verified-submissions filter of `load_submissions` (coordinator.py
lines 157-161): keep a submission iff `verified` and
`validation_error is None or validation_error == ""`. -/
def verifiedFilter (s : Submission) : Bool :=
  s.verified && (s.validationError == none || s.validationError == some "")

/-- The try/for loop of `load_submissions` (coordinator.py lines
124-139): extend `acc` with each per-interval fetch result in turn; the
first raised exception is caught, leaving the submissions collected so
far and signalling the error branch with `true`. -/
def loadSubmissionsGo (acc : List Submission) :
    List (Except PyError (List Submission)) → Bool × List Submission
  | [] => (false, acc)
  | Except.error _ :: _ => (true, acc)
  | Except.ok subs :: rest => loadSubmissionsGo (acc ++ subs) rest

/-- `load_submissions`: each element of `fetchResults` is the outcome of
one `cassandra.get_submissions` call (one per mini time interval).  On
an exception the function returns an EMPTY verified dataframe together
with the submissions collected so far (coordinator.py line 137);
otherwise it returns the verified-filtered dataframe and the full list. -/
def loadSubmissions (fetchResults : List (Except PyError (List Submission))) :
    List Submission × List Submission :=
  match loadSubmissionsGo [] fetchResults with
  | (true, subs) => ([], subs)
  | (false, subs) => (subs.filter verifiedFilter, subs)

/-! ## Helpers of `process_statehash_df` modelled from the spec
(`helper.py` is not among the sources) -/

/-- Modelled from the spec: `find_new_values_to_insert` from
`helper.py`.  Spec sections 3 and 4.4 describe the node and state-hash
tables as insert-if-absent: the values to insert are the incoming values
not already present. -/
def findNewValuesToInsert (existing incoming : List String) : List String :=
  incoming.filter (fun v => !(existing.contains v))

/-- Modelled from the spec: `filter_state_hash_percentage` from
`helper.py`.  Spec section 4.5 step 1: retain the state hashes whose
fraction of distinct observing submitters (relative to all distinct
submitters of the batch) is at least a configured threshold; the exact
threshold is an open design parameter, so it is passed in as the
fraction `thresholdNum / thresholdDen`. -/
def filterStateHashPercentage (master : List Submission)
    (thresholdNum thresholdDen : Nat) : List String :=
  let total := ((master.map (·.submitter)).dedup).length
  ((master.map (·.stateHash)).dedup).filter (fun h =>
    let observers :=
      (((master.filter (fun r => r.stateHash == h)).map (·.submitter)).dedup).length
    decide (thresholdNum * total ≤ thresholdDen * observers))

/-- Modelled from the spec: `create_graph` from `helper.py`.  Spec
section 4.5 step 2: directed edges are every
`(parent_state_hash → state_hash)` pair of the batch plus every edge
among the prior batch's canonical hashes. -/
def createGraph (master : List Submission)
    (prevRelations : List (String × String)) : List (String × String) :=
  master.map (fun r => (r.parent, r.stateHash)) ++ prevRelations

/-- Modelled from the spec: `apply_weights` from `helper.py`.  Spec
section 4.5 step 3 leaves the weighting formula as an open design
parameter; weights only influence the order in which BFS expands
neighbours, never which nodes are reachable, so the weighted graph is
modelled by the same edge set. -/
def applyWeights (batchGraph : List (String × String)) : List (String × String) :=
  batchGraph

/-- Fuelled worklist loop of the BFS. -/
def bfsAux (adj : String → List String) :
    Nat → List String → List String → List String
  | 0, _, visited => visited.reverse
  | _ + 1, [], visited => visited.reverse
  | fuel + 1, v :: queue, visited =>
    if visited.contains v then bfsAux adj fuel queue visited
    else bfsAux adj fuel (queue ++ adj v) (v :: visited)

/-- Modelled from the spec: `bfs` from `helper.py`.  Spec section 4.5
step 4: seed a FIFO queue with `prev_selected ++ c_selected` and collect
every reachable node.  The fuel bounds the number of worklist pops,
which is enough because every newly visited node enqueues at most the
whole edge list once. -/
def bfs (edges : List (String × String)) (queueList : List String) :
    List String :=
  let adj := fun v => (edges.filter (fun e => e.1 == v)).map (·.2)
  bfsAux adj ((queueList.length + edges.length + 1) * (edges.length + 1))
    queueList []

/-! ## process_statehash_df (`coordinator.py`, lines 177-316) -/

/-- The tuple passed to `db.create_bot_log` (order of the Python tuple:
files processed, file timestamp, batch start epoch, batch end epoch,
processing time in seconds). -/
structure BotLogValues where
  filesProcessed : Nat
  fileTimestamp : Nat
  batchStartEpoch : Nat
  batchEndEpoch : Nat
  processingTime : Nat
deriving DecidableEq

/-- One row handed to `db.insert_statehash_results`. -/
structure StatehashResultRow where
  stateHash : String
  parentStateHash : String
  botLogId : Nat
deriving DecidableEq

/-- One row handed to `db.create_point_record` (column selection of
coordinator.py lines 302-314). -/
structure PointRecordRow where
  fileName : String
  fileTimestamps : Nat
  blockchainEpoch : Nat
  blockProducerKey : String
  blockchainHeight : Nat
  amount : Nat
  createdAt : Nat
  botLogId : Nat
  stateHash : String
deriving DecidableEq

/-- A database write issued by the coordinator, recorded in order. -/
inductive Action where
  | createStatehash (hashes : List String)
  | createNodeRecord (keys : List String)
  | createBotLog (v : BotLogValues)
  | insertStatehashResults (rows : List StatehashResultRow)
  | createPointRecord (rows : List PointRecordRow)
  | updateScoreboard (asOf : Nat) (uptimeDays : Nat)
  | insertSubmissions (subs : List Submission)
  | commit
  | rollback
deriving DecidableEq

/-- The database answers consumed while processing one batch: what the
reads return (`get_statehash_df`, `get_existing_nodes`,
`get_previous_statehash`), the id `create_bot_log` hands back, and
whether the scoreboard transaction raises. -/
structure DbEnv where
  existingStateHashes : List String
  existingNodes : List String
  prevSelected : List String
  prevRelations : List (String × String)
  newBotLogId : Nat
  scoreboardFails : Bool
deriving DecidableEq

/-- The configuration values read by `process` and its callees. -/
structure Cfg where
  retryCount : Nat
  uptimeDays : Nat
  storageCassandra : Bool
  thresholdNum : Nat
  thresholdDen : Nat
deriving DecidableEq

/-- Exception-propagating map, mirroring a Python `for` loop whose body
may raise: the first error aborts the whole computation. -/
def mapE (f : α → Except PyError β) : List α → Except PyError (List β)
  | [] => Except.ok []
  | a :: l =>
    match f a with
    | Except.error e => Except.error e
    | Except.ok b =>
      match mapE f l with
      | Except.error e => Except.error e
      | Except.ok bs => Except.ok (b :: bs)

/-- `master_df[master_df["state_hash"] == s]["parent_state_hash"].values[0]`
(coordinator.py line 268): the parent hash of the first master row with
state hash `s`; raises `IndexError` when no row matches. -/
def lookupParentHash (master : List Submission) (s : String) :
    Except PyError String :=
  match master.filter (fun r => r.stateHash == s) with
  | [] => Except.error PyError.indexError
  | r :: _ => Except.ok r.parent

/-- One row of `point_record_df` after the column assignments of
coordinator.py lines 297-314.  `file_name` is
`str(submitted_at) + "-" + str(submitter)` and `blockchain_epoch` is the
millisecond timestamp of `created_at`. -/
def mkPointRecord (botLogId : Nat) (now : Nat) (r : Submission) :
    PointRecordRow :=
  { fileName := toString r.submittedAt ++ "-" ++ r.submitter
  , fileTimestamps := r.submittedAt
  , blockchainEpoch := r.createdAt * 1000
  , blockProducerKey := r.submitter
  , blockchainHeight := r.height
  , amount := 1
  , createdAt := now
  , botLogId := botLogId
  , stateHash := r.stateHash }

/-- `pd.unique(master_df[["state_hash", "parent_state_hash"]].values.ravel())`
(coordinator.py lines 196-198): all state hashes observed in the batch,
as child or as parent, without duplicates. -/
def observedStateHashes (master : List Submission) : List String :=
  (master.map (·.stateHash) ++ master.map (·.parent)).dedup

/-- `state_hash_to_insert` (coordinator.py lines 202-204). -/
def stateHashesToInsertOf (env : DbEnv) (master : List Submission) : List String :=
  findNewValuesToInsert env.existingStateHashes (observedStateHashes master)

/-- `node_to_insert` (coordinator.py lines 209-214). -/
def nodesToInsertOf (env : DbEnv) (master : List Submission) : List String :=
  findNewValuesToInsert env.existingNodes ((master.map (·.submitter)).dedup)

/-- The writes performed by coordinator.py lines 206-219 before the
graph phase: `create_statehash` and `create_node_record`, each only when
its dataframe is non-empty. -/
def preActionsOf (env : DbEnv) (master : List Submission) : List Action :=
  (if (stateHashesToInsertOf env master).isEmpty then []
   else [Action.createStatehash (stateHashesToInsertOf env master)]) ++
  (if (nodesToInsertOf env master).isEmpty then []
   else [Action.createNodeRecord (nodesToInsertOf env master)])

/-- `c_selected_node` (coordinator.py line 232). -/
def cSelectedOf (cfg : Cfg) (master : List Submission) : List String :=
  filterStateHashPercentage master cfg.thresholdNum cfg.thresholdDen

/-- `queue_list = list(p_selected_node_df["state_hash"].values) + c_selected_node`
(coordinator.py line 246). -/
def queueListOf (env : DbEnv) (cfg : Cfg) (master : List Submission) :
    List String :=
  env.prevSelected ++ cSelectedOf cfg master

/-- `shortlisted_state_hash_df` as returned by `bfs` (coordinator.py
lines 250-256). -/
def shortlistedOf (env : DbEnv) (cfg : Cfg) (master : List Submission) :
    List String :=
  bfs (applyWeights (createGraph master env.prevRelations))
    (queueListOf env cfg master)

/-- `batch_state_hash = list(master_df["state_hash"].unique())`
(coordinator.py line 247). -/
def batchStateHashesOf (master : List Submission) : List String :=
  (master.map (·.stateHash)).dedup

/-- `point_record_df` (coordinator.py lines 258-260): master rows whose
state hash is in the (not yet pruned) shortlist. -/
def pointRecordDfOf (env : DbEnv) (cfg : Cfg) (master : List Submission) :
    List Submission :=
  master.filter (fun r => (shortlistedOf env cfg master).contains r.stateHash)

/-- The prune loop of coordinator.py lines 262-264: drop every
shortlisted hash that is not a state hash of the current batch. -/
def prunedShortlistOf (env : DbEnv) (cfg : Cfg) (master : List Submission) :
    List String :=
  (shortlistedOf env cfg master).filter
    (fun h => (batchStateHashesOf master).contains h)

/-- The parent-hash attachment loop of coordinator.py lines 266-270
followed by the `bot_log_id` column assignment of line 294: one
`StatehashResult` row per pruned shortlisted hash; the parent lookup can
raise `IndexError`. -/
def statehashRowsE (master : List Submission) (botLogId : Nat)
    (pruned : List String) : Except PyError (List StatehashResultRow) :=
  mapE (fun s =>
    match lookupParentHash master s with
    | Except.error e => Except.error e
    | Except.ok p => Except.ok ⟨s, p, botLogId⟩) pruned

/-- `file_timestamp` (coordinator.py lines 275-283): the last master
row's timestamp when any point record exists, otherwise the batch end
time.  (`master_df.iloc[-1]` cannot fail on that path, since a non-empty
`point_record_df` is a filtered subset of `master_df`.) -/
def fileTimestampOf (env : DbEnv) (cfg : Cfg) (batch : Batch)
    (master : List Submission) : Nat :=
  if (pointRecordDfOf env cfg master).isEmpty then batch.endTime
  else
    match master.getLast? with
    | some r => r.submittedAt
    | none => batch.endTime

/-- The `values` tuple of coordinator.py lines 285-291. -/
def botLogValuesOf (env : DbEnv) (cfg : Cfg) (batch : Batch)
    (master : List Submission) (verificationTime : Nat) : BotLogValues :=
  { filesProcessed := master.length
  , fileTimestamp := fileTimestampOf env cfg batch master
  , batchStartEpoch := batch.startTime
  , batchEndEpoch := batch.endTime
  , processingTime := verificationTime }

/-- The outcome of a successful `process_statehash_df` run. -/
structure PersistOk where
  actions : List Action
  botLogId : Nat
  statehashResults : List StatehashResultRow
  pointRecords : List PointRecordRow
deriving DecidableEq

/-- `process_statehash_df` (coordinator.py lines 177-316).  On success
it returns the ordered list of database writes, the freshly created
bot-log id, and the statehash-result and point-record rows that were
written.  On a raised exception it returns the error together with the
writes already issued (which the caller will roll back).  The
`queue_list[0]` access of line 253 raises `IndexError` when the queue is
empty; the parent lookup of line 268 is the other possible raiser. -/
def processStatehashDf (env : DbEnv) (cfg : Cfg) (batch : Batch)
    (master : List Submission) (verificationTime : Nat) (now : Nat) :
    Except (PyError × List Action) PersistOk :=
  if queueListOf env cfg master = [] then
    Except.error (PyError.indexError, preActionsOf env master)
  else
    match statehashRowsE master env.newBotLogId
        (prunedShortlistOf env cfg master) with
    | Except.error e => Except.error (e, preActionsOf env master)
    | Except.ok rows =>
      let points := (pointRecordDfOf env cfg master).map
        (mkPointRecord env.newBotLogId now)
      Except.ok
        { actions := preActionsOf env master ++
            [Action.createBotLog (botLogValuesOf env cfg batch master verificationTime),
             Action.insertStatehashResults rows] ++
            (if points.isEmpty then [] else [Action.createPointRecord points])
        , botLogId := env.newBotLogId
        , statehashResults := rows
        , pointRecords := points }

/-! ## process (`coordinator.py`, lines 319-410) -/

/-- The scoreboard transaction of coordinator.py lines 397-409:
`update_scoreboard`, then (Cassandra storage only) `insert_submissions`,
committed on success and rolled back when the block raises. -/
def scoreboardPhase (env : DbEnv) (cfg : Cfg) (batch : Batch)
    (allSubmissions : List Submission) : List Action :=
  if env.scoreboardFails then
    [Action.updateScoreboard batch.endTime cfg.uptimeDays, Action.rollback]
  else
    [Action.updateScoreboard batch.endTime cfg.uptimeDays] ++
      (if cfg.storageCassandra then [Action.insertSubmissions allSubmissions]
       else []) ++
      [Action.commit]

/-- The persistence part of `process` (coordinator.py lines 371-410),
starting at the `load_submissions` call: worker dispatch, sleeping and
alarm webhooks that precede it are external effects with no bearing on
the claims.  `verificationTime` is the measured dispatch duration.
Returns the successor state and the ordered database-write trace of the
iteration. -/
def process (env : DbEnv) (cfg : Cfg)
    (fetchResults : List (Except PyError (List Submission)))
    (verificationTime : Nat) (s : State) (now : Nat) : State × List Action :=
  let loaded := loadSubmissions fetchResults
  let stateHashDf := loaded.1
  let allSubmissions := loaded.2
  if stateHashDf.isEmpty then
    let values : BotLogValues :=
      { filesProcessed := 0
      , fileTimestamp := s.batch.endTime
      , batchStartEpoch := s.batch.startTime
      , batchEndEpoch := s.batch.endTime
      , processingTime := verificationTime }
    ((s.advanceToNextBatch cfg.retryCount env.newBotLogId now).1,
     Action.createBotLog values :: scoreboardPhase env cfg s.batch allSubmissions)
  else
    match processStatehashDf env cfg s.batch stateHashDf verificationTime now with
    | Except.error ea => (s.retryBatch now, ea.2 ++ [Action.rollback])
    | Except.ok out =>
      ((s.advanceToNextBatch cfg.retryCount out.botLogId now).1,
       out.actions ++ [Action.commit] ++
         scoreboardPhase env cfg s.batch allSubmissions)

/-! ## init_database (`tasks.py`, lines 59-122) -/

/-- One row of the `bot_logs` table as inserted by `init_database`
(`files_processed` is an integer because the seed row uses `-1`). -/
structure BotLogSeedRow where
  processingTime : Nat
  filesProcessed : Int
  fileTimestamps : Nat
  batchStartEpoch : Nat
  batchEndEpoch : Nat
deriving DecidableEq

/-- The seed row inserted by `init_database` (tasks.py lines 96-113). -/
def seedRow (batchEndEpoch : Nat) : BotLogSeedRow :=
  { processingTime := 0
  , filesProcessed := -1
  , fileTimestamps := batchEndEpoch
  , batchStartEpoch := batchEndEpoch
  , batchEndEpoch := batchEndEpoch }

/-- `init_database` (tasks.py lines 89-118): insert the seed row iff
`--override-empty` was passed or the `bot_logs` table is empty;
otherwise leave the table unchanged.  Returns the resulting table. -/
def initDatabase (overrideEmpty : Bool) (botLogs : List BotLogSeedRow)
    (batchEndEpoch : Nat) : List BotLogSeedRow :=
  let shouldInsert := if overrideEmpty then true else botLogs.length == 0
  if shouldInsert then botLogs ++ [seedRow batchEndEpoch] else botLogs

/-! ## Concrete inputs used by the witnesses -/

/-- A verified submission observing state hash `A` with parent `G`. -/
def wSub : Submission := ⟨5, "alice", 4, "A", "G", 10, 3, none, true⟩

/-- Database answers with a previous canonical hash `G`. -/
def wEnv : DbEnv := ⟨[], [], ["G"], [], 42, false⟩

/-- Database answers with an empty previous canonical set. -/
def wEnvNoPrev : DbEnv := ⟨[], [], [], [], 7, false⟩

/-- Configuration with submitter-percentage threshold 1/2. -/
def wCfg : Cfg := ⟨3, 90, true, 1, 2⟩

/-- Configuration whose threshold 2/1 no state hash can reach, making
`c_selected` empty. -/
def wCfgStrict : Cfg := ⟨3, 90, true, 2, 1⟩

/-- A concrete 20-minute batch window. -/
def wBatch : Batch := ⟨0, 1200, 1⟩

/-- A concrete coordinator state over `wBatch`. -/
def wState : State := ⟨wBatch, 100, 3, 1200, 0, false⟩

/-- The output of `processStatehashDf wEnv wCfg wBatch [wSub] 5 7`. -/
def wOut : PersistOk :=
  { actions :=
      [Action.createStatehash ["A", "G"], Action.createNodeRecord ["alice"],
       Action.createBotLog ⟨1, 5, 0, 1200, 5⟩,
       Action.insertStatehashResults [⟨"A", "G", 42⟩],
       Action.createPointRecord
         [⟨"5-alice", 5, 4000, "alice", 10, 1, 7, 42, "A"⟩]]
  , botLogId := 42
  , statehashResults := [⟨"A", "G", 42⟩]
  , pointRecords := [⟨"5-alice", 5, 4000, "alice", 10, 1, 7, 42, "A"⟩] }

/-- The single point record of `wOut`. -/
def wPr : PointRecordRow := ⟨"5-alice", 5, 4000, "alice", 10, 1, 7, 42, "A"⟩

/-! ## Lemmas about the ShardCalculator -/

theorem mem_shardsLoop (e c n : Nat) :
    n ∈ shardsLoop e c ↔ ∃ t, c ≤ t ∧ t < e ∧ shardOf t = n := by
  have key : ∀ k c n, e - c ≤ k →
      (n ∈ shardsLoop e c ↔ ∃ t, c ≤ t ∧ t < e ∧ shardOf t = n) := by
    intro k
    induction k with
    | zero =>
      intro c n hk
      have hce : ¬ c < e := by omega
      rw [shardsLoop, dif_neg hce]
      simp only [Finset.not_mem_empty, false_iff]
      rintro ⟨t, h1, h2, _⟩
      omega
    | succ k ih =>
      intro c n hk
      rw [shardsLoop]
      by_cases hce : c < e
      · rw [dif_pos hce, Finset.mem_insert, ih (c + 1) n (by omega)]
        constructor
        · rintro (rfl | ⟨t, h1, h2, h3⟩)
          · exact ⟨c, le_refl c, hce, rfl⟩
          · exact ⟨t, by omega, h2, h3⟩
        · rintro ⟨t, h1, h2, h3⟩
          rcases eq_or_lt_of_le h1 with rfl | hlt
          · exact Or.inl h3.symm
          · exact Or.inr ⟨t, by omega, h2, h3⟩
      · rw [dif_neg hce]
        simp only [Finset.not_mem_empty, false_iff]
        rintro ⟨t, h1, h2, _⟩
        omega
  exact key (e - c) c n (le_refl _)

theorem mem_calculateShardsSet (st e n : Nat) :
    n ∈ calculateShardsSet st e ↔
      (∃ t, st ≤ t ∧ t < e ∧ shardOf t = n) ∨
      (secondsOfDay e % 144 = 0 ∧ n = shardOf e) := by
  unfold calculateShardsSet
  by_cases h1 : shardOf e ∈ shardsLoop e st
  · rw [if_pos h1, mem_shardsLoop]
    constructor
    · exact Or.inl
    · rintro (h | ⟨hb, rfl⟩)
      · exact h
      · exact (mem_shardsLoop e st (shardOf e)).mp h1
  · rw [if_neg h1]
    by_cases h2 : secondsOfDay e % 144 = 0
    · rw [if_pos h2, Finset.mem_insert, mem_shardsLoop]
      constructor
      · rintro (rfl | h)
        · exact Or.inr ⟨h2, rfl⟩
        · exact Or.inl h
      · rintro (h | ⟨_, rfl⟩)
        · exact Or.inr h
        · exact Or.inl rfl
    · rw [if_neg h2, mem_shardsLoop]
      constructor
      · exact Or.inl
      · rintro (h | ⟨hb, _⟩)
        · exact h
        · exact absurd hb h2

/-- Claim C2: for every window `[start, end)` of length at least 144
seconds, `ShardCalculator.calculate_shards_in_range` returns exactly the
set of shards of the seconds in `[start, end)`, plus the shard of `end`
itself when the seconds-of-day of `end` is an exact multiple of 144, and
the emitted CQL lists these shards sorted ascending. -/
theorem calculate_shards_in_range_correct (st e : Nat) (h : 144 ≤ e - st) :
    (∀ n, n ∈ calculateShardsSet st e ↔
      (∃ t, st ≤ t ∧ t < e ∧ shardOf t = n) ∨
      (secondsOfDay e % 144 = 0 ∧ n = shardOf e)) ∧
    (∀ n, n ∈ calculateShardsList st e ↔ n ∈ calculateShardsSet st e) ∧
    List.Sorted (· ≤ ·) (calculateShardsList st e) ∧
    calculateShardsInRange st e =
      "shard in (" ++
        String.intercalate "," ((calculateShardsList st e).map toString) ++ ")" := by
  refine ⟨fun n => mem_calculateShardsSet st e n, fun n => ?_, ?_, rfl⟩
  · unfold calculateShardsList
    exact Finset.mem_sort (· ≤ ·)
  · unfold calculateShardsList
    exact Finset.sort_sorted (· ≤ ·) _

/-- Witness for C2 at the window `[144, 288)` (spec scenario S5). -/
theorem calculate_shards_in_range_witness :
    (∀ n, n ∈ calculateShardsSet 144 288 ↔
      (∃ t, 144 ≤ t ∧ t < 288 ∧ shardOf t = n) ∨
      (secondsOfDay 288 % 144 = 0 ∧ n = shardOf 288)) ∧
    (∀ n, n ∈ calculateShardsList 144 288 ↔ n ∈ calculateShardsSet 144 288) ∧
    List.Sorted (· ≤ ·) (calculateShardsList 144 288) ∧
    calculateShardsInRange 144 288 =
      "shard in (" ++
        String.intercalate "," ((calculateShardsList 144 288).map toString) ++ ")" :=
  calculate_shards_in_range_correct 144 288 (by decide)

/-! ## Lemmas about the batch state machine -/

theorem retryBatch_batch (s : State) (now : Nat) :
    (s.retryBatch now).batch = s.batch := by
  unfold State.retryBatch
  by_cases h : 0 < s.retrialsLeft <;> simp [h]

theorem retryBatch_interval (s : State) (now : Nat) :
    (s.retryBatch now).interval = s.interval := by
  unfold State.retryBatch
  by_cases h : 0 < s.retrialsLeft <;> simp [h]

/-- Claim C7: `retry_batch` decrements `retrials_left` and keeps `stop`
untouched when retrials remain, sets `stop` when they are exhausted, and
in both cases bumps the loop counter, refreshes the timestamp and leaves
the batch window unchanged. -/
theorem retry_batch_correct (s : State) (now : Nat) :
    (0 < s.retrialsLeft →
      (s.retryBatch now).retrialsLeft = s.retrialsLeft - 1 ∧
      (s.retryBatch now).stop = s.stop) ∧
    (s.retrialsLeft = 0 → (s.retryBatch now).stop = true) ∧
    (s.retryBatch now).loopCount = s.loopCount + 1 ∧
    (s.retryBatch now).currentTimestamp = now ∧
    (s.retryBatch now).batch = s.batch := by
  unfold State.retryBatch
  by_cases h : 0 < s.retrialsLeft
  · simp [h]
    omega
  · simp [h]

/-- Witness for C7 at a concrete state with three retrials left. -/
theorem retry_batch_witness :
    ((⟨⟨0, 1200, 1⟩, 100, 3, 1200, 0, false⟩ : State).retryBatch 50).retrialsLeft
      = 3 - 1 ∧
    ((⟨⟨0, 1200, 1⟩, 100, 3, 1200, 0, false⟩ : State).retryBatch 50).stop = false :=
  (retry_batch_correct ⟨⟨0, 1200, 1⟩, 100, 3, 1200, 0, false⟩ 50).1 (by decide)

/-- Claim C8 counterexample: at this concrete state the just-completed
batch started at 0 and `current_timestamp` is 600, so by the claim no
warning should be emitted; yet `advance_to_next_batch` runs the overrun
check only after replacing the batch, so it compares the NEW batch's
start time (1200) against the clock and the warning fires. -/
theorem advance_warning_counterexample :
    ((⟨⟨0, 1200, 1⟩, 600, 0, 1200, 0, false⟩ : State).advanceToNextBatch 3 2 700).2
      = true ∧
    ¬((⟨⟨0, 1200, 1⟩, 600, 0, 1200, 0, false⟩ : State).currentTimestamp ≤
      (⟨⟨0, 1200, 1⟩, 600, 0, 1200, 0, false⟩ : State).batch.startTime) := by
  decide

/-- Claim C8 (amended): `advance_to_next_batch` emits the warning iff
the NEW batch's start time — which equals the completed batch's END
time — is at least the state's `current_timestamp` (the check runs after
the batch is replaced and before the timestamp refresh); it also resets
`retrials_left` to `RETRY_COUNT`, replaces the batch with
`{start = old.end, end = old.end + interval, bot_log_id = new id}`,
increments the loop counter and refreshes the timestamp. -/
theorem advance_to_next_batch_correct (s : State) (rc id now : Nat) :
    ((s.advanceToNextBatch rc id now).2 = true ↔
      s.currentTimestamp ≤ s.batch.endTime) ∧
    (s.advanceToNextBatch rc id now).1.retrialsLeft = rc ∧
    (s.advanceToNextBatch rc id now).1.batch =
      ⟨s.batch.endTime, s.batch.endTime + s.interval, id⟩ ∧
    (s.advanceToNextBatch rc id now).1.loopCount = s.loopCount + 1 ∧
    (s.advanceToNextBatch rc id now).1.currentTimestamp = now := by
  unfold State.advanceToNextBatch State.warnCheck Batch.next
  simp

/-- Claim C9: rerunning `init_database` without `--override-empty`
against a non-empty `bot_logs` table inserts nothing; the seed row is
inserted exactly when the table is empty or the override flag is set. -/
theorem init_database_idempotent (botLogs : List BotLogSeedRow) (epoch : Nat) :
    (botLogs ≠ [] → initDatabase false botLogs epoch = botLogs) ∧
    initDatabase true botLogs epoch = botLogs ++ [seedRow epoch] ∧
    initDatabase false [] epoch = [seedRow epoch] := by
  refine ⟨fun h => ?_, rfl, rfl⟩
  cases botLogs with
  | nil => exact absurd rfl h
  | cons a l => rfl

/-- Witness for C9 on a one-row table. -/
theorem init_database_witness :
    initDatabase false [seedRow 5] 9 = [seedRow 5] :=
  (init_database_idempotent [seedRow 5] 9).1 (by decide)

/-- Claim C6: `load_submissions` returns as the verified dataframe
exactly the submissions with `verified = true` and `validation_error`
either null or the empty string, and returns the full submission list
unchanged alongside it. -/
theorem load_submissions_filter_correct (subs : List Submission) :
    (loadSubmissions [Except.ok subs]).2 = subs ∧
    ∀ x, x ∈ (loadSubmissions [Except.ok subs]).1 ↔
      x ∈ subs ∧ x.verified = true ∧
        (x.validationError = none ∨ x.validationError = some "") := by
  constructor
  · rfl
  · intro x
    show x ∈ subs.filter verifiedFilter ↔ _
    rw [List.mem_filter]
    unfold verifiedFilter
    simp [Bool.and_eq_true, Bool.or_eq_true, and_assoc]

/-! ## Lemmas about process_statehash_df -/

theorem mapE_ok_mem {α β : Type} {f : α → Except PyError β} :
    ∀ {l : List α} {bs : List β}, mapE f l = Except.ok bs →
      ∀ a ∈ l, ∃ b ∈ bs, f a = Except.ok b := by
  intro l
  induction l with
  | nil =>
    intro bs h a ha
    simp at ha
  | cons x rest ih =>
    intro bs h a ha
    rw [mapE] at h
    cases hx : f x with
    | error e => rw [hx] at h; simp at h
    | ok b =>
      rw [hx] at h
      cases hrest : mapE f rest with
      | error e => rw [hrest] at h; simp at h
      | ok bs2 =>
        rw [hrest] at h
        simp only [Except.ok.injEq] at h
        subst h
        rcases List.mem_cons.mp ha with rfl | ha2
        · exact ⟨b, List.mem_cons_self _ _, hx⟩
        · obtain ⟨b2, hb2, hfb2⟩ := ih hrest a ha2
          exact ⟨b2, List.mem_cons_of_mem _ hb2, hfb2⟩

theorem mapE_ok_of_forall {α β : Type} {f : α → Except PyError β} :
    ∀ {l : List α}, (∀ a ∈ l, ∃ b, f a = Except.ok b) →
      ∃ bs, mapE f l = Except.ok bs := by
  intro l
  induction l with
  | nil => exact fun _ => ⟨[], rfl⟩
  | cons x rest ih =>
    intro h
    obtain ⟨b, hb⟩ := h x (List.mem_cons_self _ _)
    obtain ⟨bs, hbs⟩ := ih (fun a ha => h a (List.mem_cons_of_mem _ ha))
    exact ⟨b :: bs, by rw [mapE, hb, hbs]⟩

theorem lookupParentHash_ok {master : List Submission} {s : String}
    (h : s ∈ batchStateHashesOf master) :
    ∃ p, lookupParentHash master s = Except.ok p := by
  unfold batchStateHashesOf at h
  rw [List.mem_dedup] at h
  obtain ⟨r, hr, hrs⟩ := List.mem_map.mp h
  cases hf : master.filter (fun x => x.stateHash == s) with
  | nil =>
    exfalso
    have hmem : r ∈ master.filter (fun x => x.stateHash == s) := by
      rw [List.mem_filter]
      exact ⟨hr, by simp [hrs]⟩
    rw [hf] at hmem
    simp at hmem
  | cons r0 rest =>
    exact ⟨r0.parent, by unfold lookupParentHash; rw [hf]⟩

theorem statehashRowsE_mem {master : List Submission} {id : Nat}
    {pruned : List String} {rows : List StatehashResultRow}
    (h : statehashRowsE master id pruned = Except.ok rows)
    {s : String} (hs : s ∈ pruned) :
    ∃ sr ∈ rows, sr.stateHash = s ∧ sr.botLogId = id := by
  unfold statehashRowsE at h
  obtain ⟨b, hb, hfb⟩ := mapE_ok_mem h s hs
  cases hl : lookupParentHash master s with
  | error e => rw [hl] at hfb; simp at hfb
  | ok p =>
    rw [hl] at hfb
    simp only [Except.ok.injEq] at hfb
    subst hfb
    exact ⟨_, hb, rfl, rfl⟩

/-- Claim C1: for a successful `process_statehash_df` run, every point
record written has a matching statehash-result row with the same
`bot_log_id` and the same `state_hash` (point records are selected from
`master_df` before the shortlist is pruned, but pruning only removes
hashes outside the batch, and every point record's hash is both in the
shortlist and in the batch; both dataframes are stamped with the same
freshly created bot-log id). -/
theorem point_record_matching_statehash_result
    (env : DbEnv) (cfg : Cfg) (batch : Batch) (master : List Submission)
    (vt now : Nat) (out : PersistOk)
    (h : processStatehashDf env cfg batch master vt now = Except.ok out) :
    ∀ pr ∈ out.pointRecords, ∃ sr ∈ out.statehashResults,
      sr.botLogId = pr.botLogId ∧ sr.stateHash = pr.stateHash := by
  unfold processStatehashDf at h
  by_cases hq : queueListOf env cfg master = []
  · rw [if_pos hq] at h
    simp at h
  · rw [if_neg hq] at h
    cases hrows : statehashRowsE master env.newBotLogId
        (prunedShortlistOf env cfg master) with
    | error e => rw [hrows] at h; simp at h
    | ok rows =>
      rw [hrows] at h
      simp only [Except.ok.injEq] at h
      subst h
      intro pr hpr
      obtain ⟨r, hr, hpr2⟩ := List.mem_map.mp hpr
      subst hpr2
      unfold pointRecordDfOf at hr
      rw [List.mem_filter] at hr
      obtain ⟨hrm, hrc⟩ := hr
      have hbatch : r.stateHash ∈ batchStateHashesOf master := by
        unfold batchStateHashesOf
        rw [List.mem_dedup]
        exact List.mem_map_of_mem _ hrm
      have hpruned : r.stateHash ∈ prunedShortlistOf env cfg master := by
        unfold prunedShortlistOf
        rw [List.mem_filter]
        refine ⟨by simpa using hrc, by simpa using hbatch⟩
      obtain ⟨sr, hsrm, hse, hsid⟩ := statehashRowsE_mem hrows hpruned
      exact ⟨sr, hsrm, by simp [mkPointRecord, hsid], by simp [mkPointRecord, hse]⟩

/-- Claim C10: `process_statehash_df` picks the BFS start node as
`queue_list[0]` where `queue_list` is the previous batch's canonical
hashes followed by `c_selected`; when both are empty the access raises
`IndexError`, and when at least one is non-empty the whole run
succeeds (the only other raiser, the parent lookup, cannot fire because
every pruned hash is a state hash of some master row). -/
theorem queue_head_partiality (env : DbEnv) (cfg : Cfg) (batch : Batch)
    (master : List Submission) (vt now : Nat) :
    (env.prevSelected = [] → cSelectedOf cfg master = [] →
      processStatehashDf env cfg batch master vt now =
        Except.error (PyError.indexError, preActionsOf env master)) ∧
    (env.prevSelected ≠ [] ∨ cSelectedOf cfg master ≠ [] →
      ∃ out, processStatehashDf env cfg batch master vt now = Except.ok out) := by
  constructor
  · intro h1 h2
    have hq : queueListOf env cfg master = [] := by
      unfold queueListOf
      rw [h1, h2]
      rfl
    unfold processStatehashDf
    rw [if_pos hq]
  · intro h
    have hq : queueListOf env cfg master ≠ [] := by
      unfold queueListOf
      intro hc
      rcases List.append_eq_nil.mp hc with ⟨h1, h2⟩
      rcases h with h | h
      · exact h h1
      · exact h h2
    have hall : ∀ s ∈ prunedShortlistOf env cfg master,
        ∃ b, (fun s =>
          match lookupParentHash master s with
          | Except.error e => Except.error e
          | Except.ok p =>
            Except.ok (⟨s, p, env.newBotLogId⟩ : StatehashResultRow)) s
          = Except.ok b := by
      intro s hs
      have hb : s ∈ batchStateHashesOf master := by
        unfold prunedShortlistOf at hs
        rw [List.mem_filter] at hs
        simpa using hs.2
      obtain ⟨p, hp⟩ := lookupParentHash_ok hb
      exact ⟨⟨s, p, env.newBotLogId⟩, by simp only [hp]⟩
    have hexists : ∃ rows, statehashRowsE master env.newBotLogId
        (prunedShortlistOf env cfg master) = Except.ok rows := by
      unfold statehashRowsE
      exact mapE_ok_of_forall hall
    obtain ⟨rows, hrows⟩ := hexists
    exact ⟨_, by unfold processStatehashDf; rw [if_neg hq, hrows]⟩

/-! ## Lemmas about process -/

theorem loadSubmissionsGo_error (e : PyError) :
    ∀ (fetch : List (Except PyError (List Submission))) (acc : List Submission),
      Except.error e ∈ fetch → (loadSubmissionsGo acc fetch).1 = true := by
  intro fetch
  induction fetch with
  | nil =>
    intro acc h
    simp at h
  | cons x rest ih =>
    intro acc h
    cases x with
    | error e2 => rfl
    | ok subs =>
      rw [loadSubmissionsGo]
      apply ih
      rcases List.mem_cons.mp h with h | h
      · exact absurd h (by simp)
      · exact h

theorem loadSubmissions_error_empty {fetch : List (Except PyError (List Submission))}
    {e : PyError} (h : Except.error e ∈ fetch) :
    (loadSubmissions fetch).1 = [] := by
  unfold loadSubmissions
  have hflag := loadSubmissionsGo_error e fetch [] h
  rcases hgo : loadSubmissionsGo [] fetch with ⟨flag, subs⟩
  rw [hgo] at hflag
  simp at hflag
  subst hflag
  rfl

theorem process_empty_eq (env : DbEnv) (cfg : Cfg)
    (fetch : List (Except PyError (List Submission))) (vt : Nat) (s : State)
    (now : Nat) (h : (loadSubmissions fetch).1 = []) :
    process env cfg fetch vt s now =
      ((s.advanceToNextBatch cfg.retryCount env.newBotLogId now).1,
       Action.createBotLog
           ⟨0, s.batch.endTime, s.batch.startTime, s.batch.endTime, vt⟩ ::
         scoreboardPhase env cfg s.batch (loadSubmissions fetch).2) := by
  unfold process
  simp [h]

theorem processStatehashDf_error_actions {env : DbEnv} {cfg : Cfg} {batch : Batch}
    {master : List Submission} {vt now : Nat} {e : PyError} {acts : List Action}
    (h : processStatehashDf env cfg batch master vt now = Except.error (e, acts)) :
    acts = preActionsOf env master := by
  unfold processStatehashDf at h
  by_cases hq : queueListOf env cfg master = []
  · rw [if_pos hq] at h
    simp only [Except.error.injEq, Prod.mk.injEq] at h
    exact h.2.symm
  · rw [if_neg hq] at h
    cases hrows : statehashRowsE master env.newBotLogId
        (prunedShortlistOf env cfg master) with
    | error e2 =>
      rw [hrows] at h
      simp only [Except.error.injEq, Prod.mk.injEq] at h
      exact h.2.symm
    | ok rows =>
      rw [hrows] at h
      simp at h

theorem updateScoreboard_not_mem_preActions (env : DbEnv)
    (master : List Submission) (a d : Nat) :
    Action.updateScoreboard a d ∉ preActionsOf env master := by
  unfold preActionsOf
  intro hmem
  rcases List.mem_append.mp hmem with h | h
  · by_cases hc : (stateHashesToInsertOf env master).isEmpty <;> simp [hc] at h
  · by_cases hc : (nodesToInsertOf env master).isEmpty <;> simp [hc] at h

theorem process_persist_error_eq (env : DbEnv) (cfg : Cfg)
    (fetch : List (Except PyError (List Submission))) (vt : Nat) (s : State)
    (now : Nat) (e : PyError) (acts : List Action)
    (hne : (loadSubmissions fetch).1 ≠ [])
    (h : processStatehashDf env cfg s.batch (loadSubmissions fetch).1 vt now =
      Except.error (e, acts)) :
    process env cfg fetch vt s now = (s.retryBatch now, acts ++ [Action.rollback]) := by
  unfold process
  have hE : (loadSubmissions fetch).1.isEmpty = false := by
    cases hl : (loadSubmissions fetch).1 with
    | nil => exact absurd hl hne
    | cons a l => rfl
  simp only [hE, Bool.false_eq_true, if_false, h]

/-- Claim C4: whenever `process_statehash_df` raises, `process` rolls
back the per-batch transaction, invokes `retry_batch`, performs no
scoreboard update in that iteration and leaves the batch window
unchanged, so the same window is reprocessed on the next loop pass. -/
theorem process_persist_failure_correct (env : DbEnv) (cfg : Cfg)
    (fetch : List (Except PyError (List Submission))) (vt : Nat) (s : State)
    (now : Nat) (e : PyError) (acts : List Action)
    (hne : (loadSubmissions fetch).1 ≠ [])
    (h : processStatehashDf env cfg s.batch (loadSubmissions fetch).1 vt now =
      Except.error (e, acts)) :
    (process env cfg fetch vt s now).1 = s.retryBatch now ∧
    Action.rollback ∈ (process env cfg fetch vt s now).2 ∧
    (∀ a d, Action.updateScoreboard a d ∉ (process env cfg fetch vt s now).2) ∧
    (process env cfg fetch vt s now).1.batch = s.batch := by
  rw [process_persist_error_eq env cfg fetch vt s now e acts hne h]
  refine ⟨rfl, ?_, ?_, retryBatch_batch s now⟩
  · exact List.mem_append.mpr (Or.inr (by simp))
  · intro a d hmem
    rcases List.mem_append.mp hmem with h1 | h1
    · rw [processStatehashDf_error_actions h] at h1
      exact updateScoreboard_not_mem_preActions env _ a d h1
    · simp at h1

/-- Claim C5: when the loaded verified dataframe is empty, `process`
writes exactly one bot_log row, with `files_processed = 0`, the batch's
start and end epochs and the dispatch duration; it writes no statehash
results and no point records, still executes the scoreboard update, and
advances to the next batch. -/
theorem process_empty_window_correct (env : DbEnv) (cfg : Cfg)
    (fetch : List (Except PyError (List Submission))) (vt : Nat) (s : State)
    (now : Nat) (h : (loadSubmissions fetch).1 = []) :
    ((process env cfg fetch vt s now).2.filter
        (fun a => match a with | Action.createBotLog _ => true | _ => false)) =
      [Action.createBotLog
        ⟨0, s.batch.endTime, s.batch.startTime, s.batch.endTime, vt⟩] ∧
    (∀ rows, Action.insertStatehashResults rows ∉ (process env cfg fetch vt s now).2) ∧
    (∀ rows, Action.createPointRecord rows ∉ (process env cfg fetch vt s now).2) ∧
    Action.updateScoreboard s.batch.endTime cfg.uptimeDays ∈
      (process env cfg fetch vt s now).2 ∧
    (process env cfg fetch vt s now).1 =
      (s.advanceToNextBatch cfg.retryCount env.newBotLogId now).1 := by
  rw [process_empty_eq env cfg fetch vt s now h]
  unfold scoreboardPhase
  by_cases hf : env.scoreboardFails
  · simp [hf]
  · by_cases hs : cfg.storageCassandra <;> simp [hf, hs]

/-- Claim C3 counterexample: here the single storage fetch raises, yet
the error is caught inside `load_submissions` (which returns an empty
dataframe) rather than bubbling up: `process` does not call
`retry_batch`, it writes a `files_processed = 0` bot_log row and
advances the window (the new batch starts at the old batch's end). -/
theorem load_error_counterexample :
    (process ⟨[], [], ["G"], [], 42, false⟩ ⟨3, 90, true, 1, 2⟩
        [Except.error PyError.ioError] 5
        ⟨⟨0, 1200, 1⟩, 100, 3, 1200, 0, false⟩ 2000).1 ≠
      (⟨⟨0, 1200, 1⟩, 100, 3, 1200, 0, false⟩ : State).retryBatch 2000 ∧
    (process ⟨[], [], ["G"], [], 42, false⟩ ⟨3, 90, true, 1, 2⟩
        [Except.error PyError.ioError] 5
        ⟨⟨0, 1200, 1⟩, 100, 3, 1200, 0, false⟩ 2000).1.batch.startTime = 1200 ∧
    Action.createBotLog ⟨0, 1200, 0, 1200, 5⟩ ∈
      (process ⟨[], [], ["G"], [], 42, false⟩ ⟨3, 90, true, 1, 2⟩
        [Except.error PyError.ioError] 5
        ⟨⟨0, 1200, 1⟩, 100, 3, 1200, 0, false⟩ 2000).2 := by
  decide

/-- Claim C3 (amended): an error raised while loading submissions is
caught inside `load_submissions`, which returns an empty verified
dataframe; `process` then treats the window as empty — it writes a
bot_log row with `files_processed = 0` and advances to the next batch —
so the window is marked complete and `retry_batch` is not invoked. -/
theorem load_error_swallowed (env : DbEnv) (cfg : Cfg)
    (fetch : List (Except PyError (List Submission))) (vt : Nat) (s : State)
    (now : Nat) (e : PyError) (h : Except.error e ∈ fetch) :
    (loadSubmissions fetch).1 = [] ∧
    (process env cfg fetch vt s now).1 =
      (s.advanceToNextBatch cfg.retryCount env.newBotLogId now).1 ∧
    Action.createBotLog
        ⟨0, s.batch.endTime, s.batch.startTime, s.batch.endTime, vt⟩ ∈
      (process env cfg fetch vt s now).2 := by
  have h1 := loadSubmissions_error_empty h
  refine ⟨h1, ?_, ?_⟩
  · rw [process_empty_eq env cfg fetch vt s now h1]
  · rw [process_empty_eq env cfg fetch vt s now h1]
    exact List.mem_cons_self _ _

/-! ## Witnesses for the hypothesised claim theorems -/

/-- Witness for C1: on the concrete run producing `wOut`, the point
record `wPr` has a matching statehash-result row. -/
theorem point_record_matching_witness :
    ∃ sr ∈ wOut.statehashResults,
      sr.botLogId = wPr.botLogId ∧ sr.stateHash = wPr.stateHash :=
  point_record_matching_statehash_result wEnv wCfg wBatch [wSub] 5 7 wOut
    (by rfl) wPr (by decide)

/-- Witness for C3 (amended): a failing fetch yields an empty verified
dataframe and `process` advances instead of retrying. -/
theorem load_error_swallowed_witness :
    (loadSubmissions [Except.error PyError.ioError]).1 = [] ∧
    (process wEnvNoPrev wCfg [Except.error PyError.ioError] 5 wState 2000).1 =
      (wState.advanceToNextBatch wCfg.retryCount wEnvNoPrev.newBotLogId 2000).1 :=
  ⟨(load_error_swallowed wEnvNoPrev wCfg [Except.error PyError.ioError] 5 wState
      2000 PyError.ioError (List.mem_singleton_self _)).1,
   (load_error_swallowed wEnvNoPrev wCfg [Except.error PyError.ioError] 5 wState
      2000 PyError.ioError (List.mem_singleton_self _)).2.1⟩

/-- Witness for C4: a concrete persistence failure (empty BFS queue)
makes `process` retry the batch and roll back. -/
theorem process_persist_failure_witness :
    (process wEnvNoPrev wCfgStrict [Except.ok [wSub]] 5 wState 2000).1 =
      wState.retryBatch 2000 ∧
    Action.rollback ∈
      (process wEnvNoPrev wCfgStrict [Except.ok [wSub]] 5 wState 2000).2 :=
  ⟨(process_persist_failure_correct wEnvNoPrev wCfgStrict [Except.ok [wSub]] 5
      wState 2000 PyError.indexError
      [Action.createStatehash ["A", "G"], Action.createNodeRecord ["alice"]]
      (by decide) (by rfl)).1,
   (process_persist_failure_correct wEnvNoPrev wCfgStrict [Except.ok [wSub]] 5
      wState 2000 PyError.indexError
      [Action.createStatehash ["A", "G"], Action.createNodeRecord ["alice"]]
      (by decide) (by rfl)).2.1⟩

/-- Witness for C5: with no fetched submissions, `process` writes the
single zero-count bot_log row and still reaches the scoreboard update. -/
theorem process_empty_window_witness :
    ((process wEnv wCfg [] 5 wState 2000).2.filter
        (fun a => match a with | Action.createBotLog _ => true | _ => false)) =
      [Action.createBotLog ⟨0, 1200, 0, 1200, 5⟩] ∧
    Action.updateScoreboard 1200 90 ∈ (process wEnv wCfg [] 5 wState 2000).2 :=
  ⟨(process_empty_window_correct wEnv wCfg [] 5 wState 2000 (by rfl)).1,
   (process_empty_window_correct wEnv wCfg [] 5 wState 2000 (by rfl)).2.2.2.1⟩

/-- Witness for C10: with no previous canonical hashes and an
unreachable threshold, `process_statehash_df` raises `IndexError` after
the two insert-if-absent writes. -/
theorem queue_head_partiality_witness :
    processStatehashDf wEnvNoPrev wCfgStrict wBatch [wSub] 5 7 =
      Except.error (PyError.indexError, preActionsOf wEnvNoPrev [wSub]) :=
  (queue_head_partiality wEnvNoPrev wCfgStrict wBatch [wSub] 5 7).1 rfl (by decide)

end UptimeValidation
